import Mathlib

/-!
Verification of the PR review workflow orchestrator
(`review/review.go`, `review/ticket.go`, `openai/client.go`).

The Go source is shallowly embedded: pure helpers become Lean functions,
filesystem and network effects become explicit parameters and returned
state, and `error` returns become `Except String`.
-/

set_option maxHeartbeats 1000000

deriving instance DecidableEq for Except

/-! ## List/character utilities mirroring the Go `strings` package -/

/-- `startsL pat s` is `strings.HasPrefix(s, pat)` on character lists. -/
def startsL : List Char → List Char → Bool
  | [], _ => true
  | _ :: _, [] => false
  | p :: ps, c :: cs => p == c && startsL ps cs

/-- `occursL pat s` is `strings.Contains(s, pat)` on character lists. -/
def occursL : List Char → List Char → Bool
  | pat, [] => startsL pat []
  | pat, c :: cs => startsL pat (c :: cs) || occursL pat cs

/-- `replaceFirstL pat rep s` is `strings.Replace(s, pat, rep, 1)` on
character lists: the first occurrence of `pat` is replaced by `rep`. -/
def replaceFirstL (pat rep : List Char) : List Char → List Char
  | [] => if startsL pat [] then rep else []
  | c :: cs =>
    if startsL pat (c :: cs) then rep ++ (c :: cs).drop pat.length
    else c :: replaceFirstL pat rep cs

/-- `strings.HasPrefix` on strings. -/
def goHasPre (s pat : String) : Bool := startsL pat.data s.data

/-- `strings.Contains` on strings. -/
def goContains (s pat : String) : Bool := occursL pat.data s.data

/-- `strings.Replace(s, pat, rep, 1)` on strings. -/
def goReplaceFirst (s pat rep : String) : String :=
  ⟨replaceFirstL pat.data rep.data s.data⟩

/-- Substring containment as a proposition: `t` occurs inside `s`. -/
def containsStr (s t : String) : Prop := ∃ a b : String, s = a ++ t ++ b

/-- Splitting a character list at newline characters (the segments between
`'\n'` characters, as Go's `bufio.Scanner`/`(?m)` anchors see them). -/
def splitNl : List Char → List (List Char)
  | [] => [[]]
  | c :: cs =>
    if c = '\n' then [] :: splitNl cs
    else
      match splitNl cs with
      | [] => [[c]]
      | l :: ls => (c :: l) :: ls

/-- Go's `bufio.ScanLines` drops a single trailing `'\r'` from each line. -/
def stripCR (l : List Char) : List Char :=
  match l.reverse with
  | '\r' :: rest => rest.reverse
  | _ => l

/-- The lines yielded by `bufio.NewScanner` over a string (Go's scanner
also does not yield a final empty line after a trailing newline; that
final empty segment is harmless here because every consumer skips empty
lines). -/
def scanLines (s : String) : List String :=
  (splitNl s.data).map (fun l => ⟨stripCR l⟩)

/-! ## ReviewContext (`review.go`, type `ReviewContext`)

Only the fields the verified operations touch are carried; paths are
represented by the file contents themselves (the two-file filesystem
`FS` below stands for the files at `DiffPath` and `FilesPath`). -/

structure ReviewContext where
  Ticket : String := ""
  Branch : String := ""
  MaxTokens : Nat := 120000
  Model : String := "gpt-4o"
  DesignDocContent : String := ""
  TicketDetails : String := ""
  DiffContent : String := ""
  FilesContent : String := ""
  SynthesisContent : String := ""
  DiffTokens : Nat := 0
  FilesTokens : Nat := 0
  TotalTokens : Nat := 0
  deriving Repr, DecidableEq

/-- The two workflow input files: contents at `DiffPath` and `FilesPath`
(`none` = the file does not exist / the read fails). -/
structure FS where
  diffFile : Option String
  filesFile : Option String
  deriving Repr, DecidableEq

/-- A token counter: `CountText(text, model)`, as an oracle that may fail
(`tokens.Counter.CountText` returns `(int, error)`). -/
def TokenCounterFn := String → String → Except String Nat

/-! ## CountTokens (`review.go` lines 1014-1081)

Reads the diff and files list, counts tokens in both, stores contents and
counts in the context, writes a token-count annotation back into both
files (unconditionally prepended to the diff; spliced into the files list
at the `"\n\n## Modified Files"` marker via `strings.Replace(..., 1)`),
and finally fails iff the combined count exceeds `MaxTokens`. -/

def tokenInfoDiffStr (diffTokens : Nat) (model : String) : String :=
  "\n\nThis diff contains **" ++ toString diffTokens ++
    " tokens** when processed by " ++ model ++ ".\n\n"

def tokenInfoFilesStr (filesTokens : Nat) (model : String) : String :=
  "\n\nThis file list contains **" ++ toString filesTokens ++
    " tokens** when processed by " ++ model ++ ".\n\n"

def CountTokens (counter : TokenCounterFn) (fs : FS) (ctx : ReviewContext) :
    Except String (FS × ReviewContext) :=
  match fs.diffFile with
  | none => .error "error reading diff file"
  | some diffContent =>
    match fs.filesFile with
    | none => .error "error reading files list"
    | some filesContent =>
      match counter diffContent ctx.Model with
      | .error e => .error ("error counting diff tokens: " ++ e)
      | .ok diffTokens =>
        match counter filesContent ctx.Model with
        | .error e => .error ("error counting files tokens: " ++ e)
        | .ok filesTokens =>
          let totalTokens := diffTokens + filesTokens
          let newDiffContent := tokenInfoDiffStr diffTokens ctx.Model ++ diffContent
          let newFilesContent :=
            goReplaceFirst filesContent "\n\n## Modified Files"
              (tokenInfoFilesStr filesTokens ctx.Model ++ "## Modified Files")
          let fs' : FS :=
            { diffFile := some newDiffContent, filesFile := some newFilesContent }
          let ctx' : ReviewContext := { ctx with
            DiffContent := newDiffContent
            FilesContent := newFilesContent
            DiffTokens := diffTokens
            FilesTokens := filesTokens
            TotalTokens := totalTokens }
          if totalTokens > ctx.MaxTokens then
            .error ("token limit exceeded: " ++ toString totalTokens ++
              " tokens (limit: " ++ toString ctx.MaxTokens ++ ")")
          else
            .ok (fs', ctx')

/-! ## ParseChangedFiles (`review.go` lines 1318-1404)

Splits the files-list artifact into Modified/Added/Deleted sections by
scanning for `## ` markdown headers; only non-empty lines containing a
`.` count as file paths. Returns Modified then Deleted paths; when those
sections yield nothing it falls back to a whole-text regex scan for
file-looking lines, and errors when even that finds nothing. -/

/-- The three path lists accumulated by the section scan (the Go code's
`sections` map). -/
structure GoSections where
  modified : List String
  added : List String
  deleted : List String
  deriving Repr, DecidableEq

/-- `strings.TrimPrefix`. -/
def goTrimPre (s pat : String) : String :=
  if startsL pat.data s.data then ⟨s.data.drop pat.data.length⟩ else s

/-- A line survives the `line == "" || !strings.Contains(line, ".")` skip. -/
def goodLine (l : String) : Bool := !(l == "") && goContains l "."

/-- One iteration of the scanner loop's `switch currentSection`. -/
def addLine (cur line : String) (acc : GoSections) : GoSections :=
  if cur = "Modified Files" then { acc with modified := acc.modified ++ [line] }
  else if cur = "Added Files" then { acc with added := acc.added ++ [line] }
  else if cur = "Deleted Files" then { acc with deleted := acc.deleted ++ [line] }
  else acc

/-- The scanner loop of `ParseChangedFiles` (lines 1345-1371). -/
def parseSectionsLoop : List String → String → GoSections → GoSections
  | [], _, acc => acc
  | line :: rest, cur, acc =>
    if goHasPre line "## " then
      parseSectionsLoop rest (goTrimPre line "## ") acc
    else if goodLine line then
      parseSectionsLoop rest cur (addLine cur line acc)
    else
      parseSectionsLoop rest cur acc

/-- Character class `[a-zA-Z0-9_\-./]` of the fallback regex. -/
def fileChar (c : Char) : Bool :=
  c.isAlphanum || c == '_' || c == '-' || c == '.' || c == '/'

/-- Whether a line (a segment between newlines) fully matches the fallback
regex `^([a-zA-Z0-9_\-./]+\.[a-zA-Z0-9]+)$`: all characters in the class,
with a final dot-separated run of alphanumerics and a non-empty stem. The
dot of any such match is necessarily the line's last dot, because the
trailing run admits no dot; the check below splits at the last dot. -/
def matchesFileLine (l : List Char) : Bool :=
  l.all fileChar &&
    (let suf := l.reverse.takeWhile (fun c => !(c == '.'))
     let rest := l.reverse.dropWhile (fun c => !(c == '.'))
     !suf.isEmpty && suf.all (fun c => c.isAlphanum) && decide (2 ≤ rest.length))

/-- `FindAllStringSubmatch` of the fallback regex over the whole text:
the full-line matches in order. -/
def regexFallback (filesContent : String) : List String :=
  ((splitNl filesContent.data).filter matchesFileLine).map (fun l => ⟨l⟩)

def ParseChangedFiles (filesContent : String) : Except String (List String) :=
  if filesContent = "" then .error "files content is empty"
  else
    let secs := parseSectionsLoop (scanLines filesContent) "" ⟨[], [], []⟩
    let files := secs.modified ++ secs.deleted
    if files = [] then
      let ms := regexFallback filesContent
      if ms = [] then .error "could not find any filenames in files content"
      else .ok ms
    else .ok files

/-! Spec-side reading of the files-list contract ("returns exactly the
paths listed under the `## Modified Files` and `## Deleted Files`
sections"): for each occurrence of the section header, take the lines up
to the next header and keep the path-shaped ones. -/

/-- The lines following a point in the text up to (excluding) the next
`## ` header. -/
def sectionChunk : List String → List String
  | [] => []
  | line :: rest => if goHasPre line "## " then [] else line :: sectionChunk rest

/-- All lines standing under an exactly-titled `## name` header. -/
def linesUnder (name : String) : List String → List String
  | [] => []
  | line :: rest =>
    (if line = "## " ++ name then sectionChunk rest else []) ++ linesUnder name rest

/-- Modelled from the spec: the paths listed under section `name` — the
lines under each `## name` header that look like paths. -/
def specSectionPaths (name : String) (filesContent : String) : List String :=
  (linesUnder name (scanLines filesContent)).filter goodLine

def specModified (filesContent : String) : List String :=
  specSectionPaths "Modified Files" filesContent

def specDeleted (filesContent : String) : List String :=
  specSectionPaths "Deleted Files" filesContent

/-- The three section titles the scanner stores lines for. -/
def isSectionName (name : String) : Bool :=
  name == "Modified Files" || name == "Added Files" || name == "Deleted Files"

/-- Selecting one of the accumulated lists by section title. -/
def GoSections.sel (s : GoSections) (name : String) : List String :=
  if name = "Modified Files" then s.modified
  else if name = "Added Files" then s.added
  else if name = "Deleted Files" then s.deleted
  else []

/-! ## Prompt builders for Stages 5-7 (`review.go` lines 1107-1125 and
1692-2000)

Each generator is a total function of the context (no error path). The
synthesis slot holds `SynthesisContent` when non-empty and the literal
placeholder otherwise; each prompt is the fixed preamble, then the
synthesis slot, then the shared context tail. -/

def GetCommonPromptIntro (role : String) : String :=
  let commonIntro :=
    "You are a skeptical and methodical Sr Developer with expertise in PHP and general software development. " ++
    "You assume there are issues, misses, and mistakes unless proven otherwise. "
  if role = "reviewer" then
    commonIntro ++ "You're reviewing code for other senior developers who value helpfulness, brevity, and professionalism. "
  else if role = "analyzer" then
    commonIntro ++ "You're analyzing a file from a codebase that uses a custom silo/service/domain/repository/applicationservice architecture.\n\n"
  else if role = "discoverer" then
    commonIntro ++ "You're reviewing a pull request in a PHP codebase that uses a custom architecture with silo/service/domain/repository/applicationservice patterns."
  else if role = "summarizer" then
    commonIntro ++ "You're creating a final summary of a PR review for GitHub. "
  else commonIntro

/-- Lines 1694-1697 (and 1797-1800, 1893-1896): the synthesis text used in
the prompt, defaulting to the placeholder. -/
def synthesisOrPlaceholder (c : ReviewContext) : String :=
  if c.SynthesisContent = "" then "No synthesis available." else c.SynthesisContent

/-- The context blocks every review prompt ends with (PR diff, then the
optional design document and Jira ticket blocks). -/
def reviewCtxTail (c : ReviewContext) : String :=
  "\n\n### Changes in this PR\n\n" ++ c.DiffContent ++
  (if c.DesignDocContent = "" then "" else "\n\n### Design Document\n\n" ++ c.DesignDocContent) ++
  (if c.TicketDetails = "" then "" else "\n\n### Jira Ticket\n\n" ++ c.TicketDetails)

/-- Everything `GenerateSyntaxReviewPrompt` writes before the synthesis
slot (lines 1703-1772), in `WriteString` order. -/
def syntaxReviewPre : String :=
  "# Code Review: Syntax and Best Practices\n\n" ++
  GetCommonPromptIntro "reviewer" ++
  "Your goal is to identify syntax issues and best practice violations that could cause the team problems. " ++
  "Focus on substance over form, and avoid stating things that would be obvious to experienced developers.\n\n" ++
  "## Review Focus\n\n" ++
  "For this syntax review, focus on:\n\n" ++
  "1. **Syntax Issues**: Identify errors that would cause runtime failures, typos in names, missing syntax elements, and namespace issues.\n\n" ++
  "2. **Logic and Variable Usage**: Examine parameter usage, type handling, null/undefined access, conditional logic, and error handling patterns.\n\n" ++
  "3. **Duplicate Implementations**: Check if the PR is implementing functionality that already exists elsewhere in the codebase. Look for similar class/method names or functionality across different namespaces.\n\n" ++
  "4. **Namespace Conflicts**: Identify any duplicate class/interface names across different namespaces that could cause confusion or import conflicts.\n\n" ++
  "5. **Review Limitations**: Explicitly state if you have sufficient context and what additional information would improve the review.\n\n" ++
  "## Machine Consumption Format\n\n" ++
  "IMPORTANT: Your output will be processed by another LLM to create a consolidated review, not read directly by humans.\n\n" ++
  "Use these consistent tags and format:\n\n" ++
  "```\n" ++
  "<SYNTAX_REVIEW>\n" ++
  "  <REVIEW_SUMMARY>\n" ++
  "  Brief assessment of findings and limitations\n" ++
  "  </REVIEW_SUMMARY>\n\n" ++
  "  <CRITICAL_ISSUES>\n" ++
  "  [List syntax errors that would cause runtime failures]\n" ++
  "  </CRITICAL_ISSUES>\n\n" ++
  "  <LOGIC_ISSUES>\n" ++
  "  [List problems with variable/parameter usage and logic]\n" ++
  "  </LOGIC_ISSUES>\n\n" ++
  "  <IMPROVEMENT_SUGGESTIONS>\n" ++
  "  [List best practice violations]\n" ++
  "  </IMPROVEMENT_SUGGESTIONS>\n\n" ++
  "  <REVIEW_LIMITATIONS>\n" ++
  "  [State what additional context would help]\n" ++
  "  </REVIEW_LIMITATIONS>\n" ++
  "</SYNTAX_REVIEW>\n" ++
  "```\n\n" ++
  "For each issue, use this format:\n\n" ++
  "```\n" ++
  "<ISSUE>\n" ++
  "FILE: path/to/file.php\n" ++
  "LINE: 42\n" ++
  "SEVERITY: [Critical|Major|Minor]\n" ++
  "PROBLEM: Brief description\n" ++
  "... several lines of prior context with line numbers...\n" ++
  "SOLUTION_CODE:\n" ++
  "```php\n" ++
  "// Original\n" ++
  "$original = $code->here();\n\n" ++
  "// Fixed\n" ++
  "$fixed = $code->here();\n" ++
  "```\n" ++
  "... more lines of prior context with line numbers if available...\n" ++
  "</ISSUE>\n" ++
  "```\n\n" ++
  "If no issues found in a category: `<NO_ISSUES_FOUND/>`\n\n" ++
  "Focus exclusively on syntax and logic - ignore broader functionality concerns.\n\n" ++
  "## Context\n\n" ++
  "The following context is provided for your review:\n\n" ++
  "### Original Implementation\n\n"

def GenerateSyntaxReviewPrompt (c : ReviewContext) : String :=
  syntaxReviewPre ++ synthesisOrPlaceholder c ++ reviewCtxTail c

/-- Everything `GenerateFunctionalityReviewPrompt` writes before the
synthesis slot (lines 1806-1868), in `WriteString` order. -/
def functionalityReviewPre : String :=
  "# Code Review: Implementation vs Requirements\n\n" ++
  GetCommonPromptIntro "reviewer" ++
  "Your goal is to identify missing or incorrect functionality that could cause the team problems. " ++
  "Focus on substance over form, and avoid stating things that would be obvious to experienced developers.\n\n" ++
  "## Review Focus\n\n" ++
  "For this functionality review, focus on:\n\n" ++
  "Use the included context of Jira ticket content and (if exists) design doc content to determine whether or not the implement code completely and correctly satisfies all requirements." ++
  "List any missing or incorrectly implemented functionality separately" ++
  "WITH COMPLETE HONESTY ANSWER: Am I able, with the given context, to review this implementation thoroughly? Yes or No, then why if No." ++
  "WITH COMPLETE HONESTY ANSWER: What context is missing or would be helpful if the above answer is NO. Be specific on WHY this is needed for the review, after asking: would a Sr Dev on the team expect to the have the context I think is missing?." ++
  "Again, NO above, explain exactly HOW you would use the context you suggest is missing, if you had it." ++
  "## Machine Consumption Format\n\n" ++
  "IMPORTANT: Your output will be processed by another LLM to create a consolidated review, not read directly by humans.\n\n" ++
  "Use these consistent tags and format:\n\n" ++
  "```\n" ++
  "<FUNCTIONALITY_REVIEW>\n" ++
  "  <REVIEW_SUMMARY>\n" ++
  "  Brief assessment of findings and limitations\n" ++
  "  </REVIEW_SUMMARY>\n\n" ++
  "  <FUNCTIONALITY_ISSUES>\n" ++
  "  [List misses or errors in implemented functionality, as compared to ticket/design doc reqs]\n" ++
  "  </FUNCTIONALITY_ISSUES>\n\n" ++
  "  <REVIEW_LIMITATIONS>\n" ++
  "  [State if able to do a thorough review]\n" ++
  "  [State what additional context would help]\n" ++
  "  </REVIEW_LIMITATIONS>\n" ++
  "</FUNCTIONALITY_REVIEW>\n" ++
  "```\n\n" ++
  "For each issue, use this format:\n\n" ++
  "```\n" ++
  "<ISSUE>\n" ++
  "FILE: path/to/file.php\n" ++
  "LINE: 42\n" ++
  "SEVERITY: [Critical|Major|Minor]\n" ++
  "PROBLEM: Brief description\n" ++
  "... several lines of prior context with line numbers...\n" ++
  "SOLUTION_CODE:\n" ++
  "```php\n" ++
  "// Original\n" ++
  "$original = $code->here();\n\n" ++
  "// Fixed\n" ++
  "$fixed = $code->here();\n" ++
  "```\n" ++
  "... more lines of prior context with line numbers if available...\n" ++
  "</ISSUE>\n" ++
  "```\n\n" ++
  "If no issues found in a category: `<NO_ISSUES_FOUND/>`\n\n" ++
  "Focus exclusively on functionality implementation per ticket/design doc - ignore broader syntax and logic concerns.\n\n" ++
  "## Context\n\n" ++
  "The following context is provided for your review:\n\n" ++
  "### Original Implementation\n\n"

def GenerateFunctionalityReviewPrompt (c : ReviewContext) : String :=
  functionalityReviewPre ++ synthesisOrPlaceholder c ++ reviewCtxTail c

/-- Everything `GenerateDefensiveReviewPrompt` writes before the synthesis
slot (lines 1902-1980), in `WriteString` order. -/
def defensiveReviewPre : String :=
  "# Code Review: Defensive Programming\n\n" ++
  GetCommonPromptIntro "reviewer" ++
  "Your goal is to identify security issues, error handling gaps, and edge cases that could cause production problems. " ++
  "Focus on substance over form, and avoid stating things that would be obvious to experienced developers.\n\n" ++
  "## Review Focus\n\n" ++
  "CRITICAL: First thoroughly understand the existing code logic and its purpose before suggesting any changes.\n\n" ++
  "For this defensive programming review, focus on:\n\n" ++
  "1. **Understand before suggesting**: ALWAYS make sure you fully understand what the existing code is trying to accomplish before suggesting changes. This is especially important for conditional logic.\n\n" ++
  "2. **Preserve functionality**: Never suggest changes that would remove intended functionality or edge case handling. If the original code handles a specific case, your suggestion must also handle it.\n\n" ++
  "3. **Provide context**: For every suggestion, include the function/method signature and several lines of context before and after the change to help developers locate the code.\n\n" ++
  "4. **Based on what we know of the original functionality (see context below), could this new functionality break anything?\n\n" ++
  "5. **Deep dive into funcs**: Check to see whether the vars being passed in are actually what the func content expects\n\n" ++
  "6. **Look for uncaught errors**: Identify areas that could expose uncaught errors/exceptions that would break or interrupt calling code\n\n" ++
  "7. **Carefully analyze edge cases**: Consider edge cases within the context of what the code is trying to accomplish. Only suggest changes if they actually improve handling of edge cases.\n\n" ++
  "8. **Pay close attention to conditional logic**: When suggesting changes to if/else statements or other conditionals, ensure you fully understand the business logic and don't remove intended functionality.\n\n" ++
  "9. **Review Limitations**: Explicitly state if you have sufficient context and what additional information would improve the review.\n\n" ++
  "## Machine Consumption Format\n\n" ++
  "IMPORTANT: Your output will be processed by another LLM to create a consolidated review, not read directly by humans.\n\n" ++
  "Use these consistent tags and format:\n\n" ++
  "```\n" ++
  "<DEFENSIVE_REVIEW>\n" ++
  "  <REVIEW_SUMMARY>\n" ++
  "  Brief assessment of findings and limitations\n" ++
  "  </REVIEW_SUMMARY>\n\n" ++
  "  <ERROR_HANDLING_ISSUES>\n" ++
  "  [List missing or inadequate error handling]\n" ++
  "  </ERROR_HANDLING_ISSUES>\n\n" ++
  "  <EDGE_CASE_ISSUES>\n" ++
  "  [List unhandled edge cases]\n" ++
  "  </EDGE_CASE_ISSUES>\n\n" ++
  "  <SECURITY_ISSUES>\n" ++
  "  [List potential security concerns]\n" ++
  "  </SECURITY_ISSUES>\n\n" ++
  "  <RESOURCE_ISSUES>\n" ++
  "  [List resource management issues]\n" ++
  "  </RESOURCE_ISSUES>\n\n" ++
  "  <REVIEW_LIMITATIONS>\n" ++
  "  [State what additional context would help]\n" ++
  "  </REVIEW_LIMITATIONS>\n" ++
  "</DEFENSIVE_REVIEW>\n" ++
  "```\n\n" ++
  "For each issue, use this format:\n\n" ++
  "```\n" ++
  "<ISSUE>\n" ++
  "FILE: path/to/file.php\n" ++
  "LINE: 42\n" ++
  "SEVERITY: [Critical|Major|Minor]\n" ++
  "PROBLEM: Brief description\n" ++
  "... several lines of prior context with line numbers...\n" ++
  "SOLUTION_CODE:\n" ++
  "```php\n" ++
  "// Original\n" ++
  "$original = $code->here();\n\n" ++
  "// Fixed\n" ++
  "$fixed = $code->here();\n" ++
  "```\n" ++
  "... more lines of prior context with line numbers if available...\n" ++
  "</ISSUE>\n" ++
  "```\n\n" ++
  "If no issues found in a category: `<NO_ISSUES_FOUND/>`\n\n" ++
  "Focus exclusively on defensive programming concerns - ignore syntax and functionality issues already covered in other reviews.\n\n" ++
  "## Context\n\n" ++
  "The following context is provided for your review:\n\n" ++
  "### Original Implementation\n\n"

def GenerateDefensiveReviewPrompt (c : ReviewContext) : String :=
  defensiveReviewPre ++ synthesisOrPlaceholder c ++ reviewCtxTail c

/-! ## Complete (`openai/client.go` lines 71-143)

The single-turn completion call. The token count of the prompt message is
computed first; the HTTP request is issued only when the count is within
the fixed ceiling. The HTTP layer (request marshalling, status check,
response decoding, empty-choices check) is abstracted as one
`network : String → Except String String` collaborator; `networkCalled`
records whether the request was dispatched at all. -/

/-- The fixed client-side ceiling (`maxTokens := 120000` at line 88). -/
def openaiMaxTokens : Nat := 120000

structure CompleteCall where
  result : Except String String
  networkCalled : Bool
  deriving Repr, DecidableEq

def Complete (counter : String → Except String Nat)
    (network : String → Except String String) (prompt : String) : CompleteCall :=
  match counter prompt with
  | .error e => { result := .error ("error counting tokens: " ++ e), networkCalled := false }
  | .ok tokenCount =>
    if tokenCount > openaiMaxTokens then
      { result := .error ("token count (" ++ toString tokenCount ++
          ") exceeds maximum limit (" ++ toString openaiMaxTokens ++ ")")
        networkCalled := false }
    else
      match network prompt with
      | .error e => { result := .error e, networkCalled := true }
      | .ok content => { result := .ok content, networkCalled := true }

/-! ## LoadTicketDetails token gate (`review/ticket.go` lines 68-87)

After building the ticket-formatting prompt the function counts its
tokens: a counting failure is only logged, but a count above
`MaxTokens/2` aborts with an error before the LLM is called. The Jira
fetch and prompt construction (external collaborators) are summarised by
the two oracle results. -/

def LoadTicketDetails (counterRes : Except String Nat) (maxTokens : Nat)
    (completeRes : Except String String) : Except String String :=
  let send : Except String String :=
    match completeRes with
    | .error e => .error ("failed to format ticket: " ++ e)
    | .ok formattedTicket => .ok formattedTicket
  match counterRes with
  | .error _ => send
  | .ok tokenCount =>
    if tokenCount > maxTokens / 2 then
      .error ("ticket formatting prompt is too large (" ++ toString tokenCount ++
        " tokens, max is " ++ toString (maxTokens / 2) ++ ")")
    else send

/-! ## GenerateSyntaxReview stage (`review.go` lines 2169-2242)

The Stage-5 driver: builds the prompt, counts its tokens (lines
2174-2182 — the count is only logged, even when it exceeds
`MaxTokens/2`), sends the prompt to the LLM, and creates or appends to
the shared review-result artifact. `existingReview` is the prior content
of that artifact (`none` = file absent) and `llmCalled` records that the
`Complete` call was reached. -/

structure StageRun where
  result : Except String String
  llmCalled : Bool
  deriving Repr, DecidableEq

def reviewResultHeader : String :=
  "# PR Review Results\n\n" ++
  "This document contains a thorough review of the PR changes from multiple perspectives.\n\n"

def GenerateSyntaxReview (c : ReviewContext) (counter : TokenCounterFn)
    (completeRes : Except String String) (existingReview : Option String) : StageRun :=
  let prompt := GenerateSyntaxReviewPrompt c
  let _tokenCount := counter prompt c.Model
  match completeRes with
  | .error e => { result := .error ("error generating syntax review: " ++ e), llmCalled := true }
  | .ok response =>
    let outputContent :=
      match existingReview with
      | none => reviewResultHeader ++ response
      | some content => content ++ "\n\n---\n\n" ++ response
    let outputContent' :=
      match existingReview, counter outputContent c.Model with
      | none, .ok t => outputContent ++ "\n\n---\n\nThis review contains **" ++
          toString t ++ " tokens** when processed by " ++ c.Model ++ ".\n"
      | _, _ => outputContent
    { result := .ok outputContent', llmCalled := true }

/-! ## Stage 3 fan-out: AnalyzeOriginalImplementation (`review.go`
lines 1470-1625)

One worker per file. A worker's interaction with its collaborators is a
`FileBehavior`: the outcome of `GetOriginalFileContent` and of the
per-file LLM analysis, either of which may also panic. The worker body
(lines 1545-1584) turns that into an `analysisResult`; the deferred
`recover` (lines 1517-1528) converts a panic into a per-file error entry
at the worker's pre-assigned index. Workers complete in an arbitrary
order, modelled as the list of indices in completion order; each
completion writes the worker's entry at its own index of the pre-sized
results buffer. Reassembly walks the buffer in index order, skipping
entries with a non-nil error. -/

inductive PanicOr (α : Type) where
  | panicked (msg : String)
  | normal (val : α)
  deriving Repr, DecidableEq

/-- A worker's environment: what `GetOriginalFileContent` and the LLM
analysis (`AnalyzeFile`, i.e. `Client.Complete`) would do for this file. -/
structure FileBehavior where
  fetch : PanicOr (Except String String)
  llm : PanicOr (Except String String)
  deriving Repr, DecidableEq

/-- The Go struct `analysisResult`; the defaults are Go's zero values,
the state of a pre-sized buffer slot before its worker writes it. -/
structure AnalysisResult where
  file : String := ""
  analysis : String := ""
  err : Option String := none
  index : Nat := 0
  deriving Repr, DecidableEq

def zeroResult : AnalysisResult := {}

def defaultBehavior : FileBehavior :=
  { fetch := .normal (.error ""), llm := .normal (.error "") }

/-- The worker body (lines 1545-1584), before the deferred recover: fetch
the original content, then analyze; store an error entry on failure, a
success entry otherwise; a panic escapes. -/
def workerBody (index : Nat) (file : String) (b : FileBehavior) :
    PanicOr AnalysisResult :=
  match b.fetch with
  | .panicked m => .panicked m
  | .normal (.error e) => .normal { file := file, err := some e, index := index }
  | .normal (.ok _content) =>
    match b.llm with
    | .panicked m => .panicked m
    | .normal (.error e) =>
      .normal { file := file
                err := some ("error analyzing file " ++ file ++ ": " ++ e)
                index := index }
    | .normal (.ok analysis) =>
      .normal { file := file, analysis := analysis, index := index }

/-- The worker including the deferred `recover` (lines 1517-1528): a panic
becomes a per-file failure entry at the worker's own index. -/
def workerRun (index : Nat) (file : String) (b : FileBehavior) : AnalysisResult :=
  match workerBody index file b with
  | .panicked m => { file := file, err := some ("panic: " ++ m), index := index }
  | .normal r => r

/-- The entry worker `i` writes into the results buffer. -/
def writeVal (files : List String) (bs : List FileBehavior) (i : Nat) : AnalysisResult :=
  workerRun i (files.getD i "") (bs.getD i defaultBehavior)

/-- The buffer after the workers listed in `order` (their completion
order) have each written their own index. -/
def applyWrites (files : List String) (bs : List FileBehavior)
    (order : List Nat) (buf : List AnalysisResult) : List AnalysisResult :=
  order.foldl (fun acc i => acc.set i (writeVal files bs i)) buf

/-- The buffer all workers have fully written, in index order. -/
def canonicalResults (files : List String) (bs : List FileBehavior) :
    List AnalysisResult :=
  (List.range files.length).map (writeVal files bs)

/-- One per-file block of the combined artifact (line 1605). -/
def mkSection (file analysis : String) : String :=
  "## " ++ file ++ "\n\n" ++ analysis ++ "\n\n"

/-- The reassembly loop (lines 1598-1606): buffer order, skipping failed
entries. -/
def sectionsConcat (results : List AnalysisResult) : String :=
  results.foldl
    (fun sb r => if r.err.isNone then sb ++ mkSection r.file r.analysis else sb) ""

def analysisHeader : String :=
  "# Original Implementation Analysis\n\n" ++
  "This document provides an analysis of how the code worked before the changes in this PR.\n\n"

/-- The artifact written at lines 1608-1617: header, sections, and a
token-count footer when counting the body succeeds. -/
def stage3Output (counter : TokenCounterFn) (model : String)
    (results : List AnalysisResult) : String :=
  let outputContent := analysisHeader ++ sectionsConcat results
  match counter outputContent model with
  | .ok t => outputContent ++ "\n\n---\n\nThis analysis contains **" ++
      toString t ++ " tokens** when processed by " ++ model ++ ".\n"
  | .error _ => outputContent

/-- Stage 3 end to end for a given parsed file list: fan out (buffer
writes in completion order `order`), join, reassemble, write the artifact.
Per-file failures never produce a batch error (the only error paths in the
source are the file-list parse and the final artifact write, both outside
the fan-out). -/
def AnalyzeOriginalImplementation (counter : TokenCounterFn) (model : String)
    (files : List String) (bs : List FileBehavior) (order : List Nat) :
    Except String String :=
  let results := applyWrites files bs order (List.replicate files.length zeroResult)
  .ok (stage3Output counter model results)

/-- Whether a worker's environment makes its file fail (fetch or LLM
error, or a panic). -/
def behaviorFails (b : FileBehavior) : Bool :=
  match b.fetch with
  | .panicked _ => true
  | .normal (.error _) => true
  | .normal (.ok _) =>
    match b.llm with
    | .panicked _ => true
    | .normal (.error _) => true
    | .normal (.ok _) => false

/-- The indices of the files analyzed successfully, in input order. -/
def successIdx (files : List String) (bs : List FileBehavior) : List Nat :=
  (List.range files.length).filter (fun i => (writeVal files bs i).err.isNone)

/-- The artifact sections of the successful files, in input order. -/
def successSections (files : List String) (bs : List FileBehavior) : List String :=
  (successIdx files bs).map (fun i =>
    mkSection (writeVal files bs i).file (writeVal files bs i).analysis)

/-- Concatenation of a list of artifact sections (no separator). -/
def joinAll : List String → String
  | [] => ""
  | s :: rest => s ++ joinAll rest

/-! ## Stage-3 concurrency (claim C4)

The launch loop (lines 1506-1589) starts one goroutine per file,
unconditionally: no semaphore, fixed-size pool or token channel gates the
`Complete` call (the `resultsMutex` only serializes log writes and is
released before the call; the 250 ms sleep between launches delays
starts but bounds nothing). A worker is hence free to be inside its
`Complete` call regardless of how many others already are; each worker
makes at most one call. States record each worker's phase; a step starts
or finishes one worker's call. -/

inductive WorkerPhase where
  | notStarted
  | calling
  | finished
  deriving Repr, DecidableEq

/-- The number of concurrent `Complete` calls outstanding. -/
def outstanding (ps : List WorkerPhase) : Nat := ps.count .calling

inductive S3Step : List WorkerPhase → List WorkerPhase → Prop where
  | start (ps : List WorkerPhase) (i : Nat) (h : ps.getD i .finished = .notStarted) :
      S3Step ps (ps.set i .calling)
  | callDone (ps : List WorkerPhase) (i : Nat) (h : ps.getD i .finished = .calling) :
      S3Step ps (ps.set i .finished)

/-- States reachable during a Stage-3 run over `n` files. -/
inductive S3Reach (n : Nat) : List WorkerPhase → Prop where
  | init : S3Reach n (List.replicate n .notStarted)
  | step {ps ps' : List WorkerPhase} : S3Reach n ps → S3Step ps ps' → S3Reach n ps'

/-! # Theorems -/

/-! ## String helper lemmas -/

theorem replaceFirstL_of_not_occurs (pat rep : List Char) :
    ∀ s : List Char, occursL pat s = false → replaceFirstL pat rep s = s := by
  intro s
  induction s with
  | nil =>
    intro h
    simp only [occursL] at h
    simp [replaceFirstL, h]
  | cons c cs ih =>
    intro h
    simp only [occursL, Bool.or_eq_false_iff] at h
    simp [replaceFirstL, h.1, ih h.2]

theorem goReplaceFirst_of_not_contains (s pat rep : String)
    (h : goContains s pat = false) : goReplaceFirst s pat rep = s := by
  unfold goReplaceFirst
  rw [replaceFirstL_of_not_occurs pat.data rep.data s.data h]

/-- C2: `CountTokens` totals the diff and files-list token counts and
fails exactly when the total exceeds `MaxTokens`: when both reads and
both counts succeed, the call succeeds iff `d + f ≤ MaxTokens`, and on
success `TotalTokens` is the sum `d + f`. -/
theorem countTokens_budget_check (counter : TokenCounterFn) (fs : FS)
    (ctx : ReviewContext) (dc fc : String) (d f : Nat)
    (hd : fs.diffFile = some dc) (hf : fs.filesFile = some fc)
    (hcd : counter dc ctx.Model = .ok d) (hcf : counter fc ctx.Model = .ok f) :
    ((CountTokens counter fs ctx).isOk = true ↔ d + f ≤ ctx.MaxTokens)
    ∧ ∀ fs' ctx', CountTokens counter fs ctx = .ok (fs', ctx') →
        ctx'.TotalTokens = d + f := by
  unfold CountTokens
  simp only [hd, hf, hcd, hcf]
  by_cases hb : d + f > ctx.MaxTokens
  · simp only [if_pos hb]
    constructor
    · simp [Except.isOk, Except.toBool, Nat.not_le.mpr hb]
    · intro fs' ctx' hcontra
      cases hcontra
  · simp only [if_neg hb]
    constructor
    · simp [Except.isOk, Except.toBool, Nat.not_lt.mp hb]
    · intro fs' ctx' hok
      cases hok
      rfl

/-- C2 witness: the spec scenario — `MaxTokens = 120000`, a 5-token diff
and a 5-token files list — succeeds. -/
theorem countTokens_budget_check_witness :
    ((CountTokens (fun _ _ => .ok 5)
        { diffFile := some "diff text", filesFile := some "files text" }
        {}).isOk = true) :=
  (countTokens_budget_check (fun _ _ => .ok 5)
    { diffFile := some "diff text", filesFile := some "files text" }
    {} "diff text" "files text" 5 5 rfl rfl rfl rfl).1.mpr (by decide)

/-- C10: when the files-list text lacks the `"\n\n## Modified Files"`
marker, a successful `CountTokens` leaves the files-list file and
`FilesContent` byte-identical to the text read (no annotation inserted),
while the diff's annotation is prepended unconditionally. -/
theorem countTokens_files_no_marker (counter : TokenCounterFn) (fs : FS)
    (ctx : ReviewContext) (dc fc : String) (fs' : FS) (ctx' : ReviewContext)
    (hd : fs.diffFile = some dc) (hf : fs.filesFile = some fc)
    (hnomark : goContains fc "\n\n## Modified Files" = false)
    (hok : CountTokens counter fs ctx = .ok (fs', ctx')) :
    fs'.filesFile = some fc ∧ ctx'.FilesContent = fc
    ∧ ∃ dt, counter dc ctx.Model = .ok dt
        ∧ fs'.diffFile = some (tokenInfoDiffStr dt ctx.Model ++ dc)
        ∧ ctx'.DiffContent = tokenInfoDiffStr dt ctx.Model ++ dc := by
  unfold CountTokens at hok
  simp only [hd, hf] at hok
  cases hcd : counter dc ctx.Model with
  | error e => simp only [hcd] at hok; cases hok
  | ok dt =>
    simp only [hcd] at hok
    cases hcf : counter fc ctx.Model with
    | error e => simp only [hcf] at hok; cases hok
    | ok ft =>
      simp only [hcf] at hok
      by_cases hb : dt + ft > ctx.MaxTokens
      · simp only [if_pos hb] at hok; cases hok
      · simp only [if_neg hb] at hok
        cases hok
        refine ⟨?_, ?_, dt, rfl, rfl, rfl⟩
        · simp [goReplaceFirst_of_not_contains fc _ _ hnomark]
        · simp [goReplaceFirst_of_not_contains fc _ _ hnomark]

/-- C10 witness: a concrete marker-free run, with the hypotheses of
`countTokens_files_no_marker` discharged at it (the run itself is
evaluated by `decide`). -/
theorem countTokens_files_no_marker_witness :
    ({ diffFile := some (tokenInfoDiffStr 3 "gpt-4o" ++ "DIFF")
       filesFile := some "FILES" } : FS).filesFile = some "FILES"
    ∧ ({ DiffContent := tokenInfoDiffStr 3 "gpt-4o" ++ "DIFF"
         FilesContent := "FILES", DiffTokens := 3, FilesTokens := 3
         TotalTokens := 6 } : ReviewContext).FilesContent = "FILES"
    ∧ ∃ dt, (Except.ok 3 : Except String Nat) = .ok dt
        ∧ ({ diffFile := some (tokenInfoDiffStr 3 "gpt-4o" ++ "DIFF")
             filesFile := some "FILES" } : FS).diffFile
            = some (tokenInfoDiffStr dt "gpt-4o" ++ "DIFF")
        ∧ ({ DiffContent := tokenInfoDiffStr 3 "gpt-4o" ++ "DIFF"
             FilesContent := "FILES", DiffTokens := 3, FilesTokens := 3
             TotalTokens := 6 } : ReviewContext).DiffContent
            = tokenInfoDiffStr dt "gpt-4o" ++ "DIFF" :=
  countTokens_files_no_marker (fun _ _ => .ok 3)
    { diffFile := some "DIFF", filesFile := some "FILES" } {} "DIFF" "FILES"
    { diffFile := some (tokenInfoDiffStr 3 "gpt-4o" ++ "DIFF")
      filesFile := some "FILES" }
    ({ DiffContent := tokenInfoDiffStr 3 "gpt-4o" ++ "DIFF"
       FilesContent := "FILES", DiffTokens := 3, FilesTokens := 3
       TotalTokens := 6 } : ReviewContext)
    rfl rfl (by decide) (by decide)

/-- C5: `Complete` counts the prompt's tokens before any network work:
the network request is dispatched exactly when the count succeeds and is
within the fixed 120,000 ceiling, and a count above the ceiling yields
the descriptive error with no request. -/
theorem complete_token_ceiling (counter : String → Except String Nat)
    (network : String → Except String String) (prompt : String) :
    ((Complete counter network prompt).networkCalled = true ↔
      ∃ n, counter prompt = .ok n ∧ n ≤ openaiMaxTokens)
    ∧ ∀ n, counter prompt = .ok n → openaiMaxTokens < n →
        (Complete counter network prompt).networkCalled = false
        ∧ (Complete counter network prompt).result =
            .error ("token count (" ++ toString n ++
              ") exceeds maximum limit (" ++ toString openaiMaxTokens ++ ")") := by
  unfold Complete
  cases hc : counter prompt with
  | error e =>
    constructor
    · constructor
      · intro h; simp at h
      · rintro ⟨n, hn, -⟩; cases hn
    · intro n hn; cases hn
  | ok n =>
    by_cases hn : n > openaiMaxTokens
    · simp only [if_pos hn]
      refine ⟨⟨fun h => by simp at h, ?_⟩, ?_⟩
      · rintro ⟨m, hm, hle⟩
        cases hm
        exact absurd hle (Nat.not_le.mpr hn)
      · intro m hm hlt
        cases hm
        exact ⟨by trivial, by trivial⟩
    · simp only [if_neg hn]
      refine ⟨⟨fun _ => ⟨n, rfl, Nat.not_lt.mp hn⟩, fun _ => ?_⟩, ?_⟩
      · cases hw : network prompt <;> simp
      · intro m hm hlt
        cases hm
        exact absurd hlt hn

/-- C5 witness: a 120,001-token prompt is rejected without a network
call, by `complete_token_ceiling` at a concrete counter and network. -/
theorem complete_token_ceiling_witness :
    (Complete (fun _ => .ok 120001) (fun _ => .ok "response") "p").networkCalled = false
    ∧ (Complete (fun _ => .ok 120001) (fun _ => .ok "response") "p").result =
        .error ("token count (" ++ toString 120001 ++
          ") exceeds maximum limit (" ++ toString openaiMaxTokens ++ ")") :=
  (complete_token_ceiling (fun _ => .ok 120001) (fun _ => .ok "response") "p").2
    120001 rfl (by decide)

/-- C7: with empty `SynthesisContent` the Stage 5-7 prompt generators
produce their prompt (they are total — no error path) containing the
literal placeholder `"No synthesis available."`; with non-empty
`SynthesisContent` each prompt instead carries `SynthesisContent` in the
synthesis slot. -/
theorem review_prompts_use_placeholder (c : ReviewContext) :
    (c.SynthesisContent = "" →
      containsStr (GenerateSyntaxReviewPrompt c) "No synthesis available."
      ∧ containsStr (GenerateFunctionalityReviewPrompt c) "No synthesis available."
      ∧ containsStr (GenerateDefensiveReviewPrompt c) "No synthesis available.")
    ∧ (c.SynthesisContent ≠ "" →
      (GenerateSyntaxReviewPrompt c
          = syntaxReviewPre ++ c.SynthesisContent ++ reviewCtxTail c)
      ∧ (GenerateFunctionalityReviewPrompt c
          = functionalityReviewPre ++ c.SynthesisContent ++ reviewCtxTail c)
      ∧ (GenerateDefensiveReviewPrompt c
          = defensiveReviewPre ++ c.SynthesisContent ++ reviewCtxTail c)) := by
  constructor
  · intro h
    refine ⟨⟨syntaxReviewPre, reviewCtxTail c, ?_⟩,
      ⟨functionalityReviewPre, reviewCtxTail c, ?_⟩,
      ⟨defensiveReviewPre, reviewCtxTail c, ?_⟩⟩ <;>
      simp [GenerateSyntaxReviewPrompt, GenerateFunctionalityReviewPrompt,
        GenerateDefensiveReviewPrompt, synthesisOrPlaceholder, h]
  · intro h
    refine ⟨?_, ?_, ?_⟩ <;>
      simp [GenerateSyntaxReviewPrompt, GenerateFunctionalityReviewPrompt,
        GenerateDefensiveReviewPrompt, synthesisOrPlaceholder, h]

/-- C7 witness: the default context (empty synthesis) — all three prompts
contain the placeholder. -/
theorem review_prompts_use_placeholder_witness :
    containsStr (GenerateSyntaxReviewPrompt {}) "No synthesis available."
    ∧ containsStr (GenerateFunctionalityReviewPrompt {}) "No synthesis available."
    ∧ containsStr (GenerateDefensiveReviewPrompt {}) "No synthesis available." :=
  (review_prompts_use_placeholder {}).1 rfl

/-- C8 counterexample: the claim "any stage prompt over `MaxTokens/2`
makes that stage fail" is false for the Stage-5 syntax review. With
`MaxTokens = 10` and a counter reporting 6 tokens for the stage prompt
(6 > 10/2), the stage still calls the LLM and succeeds. -/
theorem half_budget_gate_counterexample :
    ((fun _ _ => .ok 6 : TokenCounterFn)
        (GenerateSyntaxReviewPrompt { MaxTokens := 10 })
        ({ MaxTokens := 10 } : ReviewContext).Model = .ok 6)
    ∧ 6 > ({ MaxTokens := 10 } : ReviewContext).MaxTokens / 2
    ∧ (GenerateSyntaxReview { MaxTokens := 10 } (fun _ _ => .ok 6)
        (.ok "REVIEW") none).llmCalled = true
    ∧ (GenerateSyntaxReview { MaxTokens := 10 } (fun _ _ => .ok 6)
        (.ok "REVIEW") none).result.isOk = true := by
  refine ⟨rfl, by decide, rfl, rfl⟩

/-- C8 (amended): only the ticket-formatting step enforces the
`MaxTokens/2` prompt bound with an error; the Stage 5-7 review drivers
merely log and proceed — shown here for the syntax review, whose LLM
call is reached and whose outcome tracks only the `Complete` result,
even when its prompt's token count exceeds `MaxTokens/2`. -/
theorem half_budget_gate (n maxTokens : Nat) (completeRes : Except String String)
    (c : ReviewContext) (counter : TokenCounterFn) (existing : Option String)
    (m : Nat) (hm : counter (GenerateSyntaxReviewPrompt c) c.Model = .ok m)
    (hmbig : m > c.MaxTokens / 2) (hnbig : n > maxTokens / 2) :
    LoadTicketDetails (.ok n) maxTokens completeRes
      = .error ("ticket formatting prompt is too large (" ++ toString n ++
          " tokens, max is " ++ toString (maxTokens / 2) ++ ")")
    ∧ (GenerateSyntaxReview c counter completeRes existing).llmCalled = true
    ∧ ((GenerateSyntaxReview c counter completeRes existing).result.isOk
        = completeRes.isOk) := by
  refine ⟨?_, ?_, ?_⟩
  · unfold LoadTicketDetails
    simp [if_pos hnbig]
  · unfold GenerateSyntaxReview
    cases completeRes <;> rfl
  · unfold GenerateSyntaxReview
    cases completeRes <;> rfl

/-- C8 witness for the amended theorem: concrete counts above the halved
budget on both sides. -/
theorem half_budget_gate_witness :
    LoadTicketDetails (.ok 7) 10 (.ok "T")
      = .error ("ticket formatting prompt is too large (" ++ toString 7 ++
          " tokens, max is " ++ toString (10 / 2) ++ ")")
    ∧ (GenerateSyntaxReview { MaxTokens := 10 } (fun _ _ => .ok 6)
        (.ok "REVIEW2") none).llmCalled = true
    ∧ ((GenerateSyntaxReview { MaxTokens := 10 } (fun _ _ => .ok 6)
        (.ok "REVIEW2") none).result.isOk
        = (Except.ok "REVIEW2" : Except String String).isOk) :=
  half_budget_gate 7 10 (.ok "REVIEW2") { MaxTokens := 10 }
    (fun _ _ => .ok 6) none 6 rfl (by decide) (by decide)

/-! ## ParseChangedFiles lemmas -/

theorem startsL_append_drop : ∀ (p l : List Char), startsL p l = true →
    p ++ l.drop p.length = l
  | [], l, _ => by simp
  | p :: ps, [], h => by simp [startsL] at h
  | p :: ps, c :: cs, h => by
    simp only [startsL, Bool.and_eq_true, beq_iff_eq] at h
    obtain ⟨rfl, h2⟩ := h
    have ih := startsL_append_drop ps cs h2
    simp only [List.length_cons, List.drop_succ_cons, List.cons_append]
    rw [ih]

theorem startsL_self (p l : List Char) : startsL p (p ++ l) = true := by
  induction p with
  | nil => rfl
  | cons a ps ih => simp [startsL, ih]

theorem goHasPre_append (pat rest : String) : goHasPre (pat ++ rest) pat = true := by
  unfold goHasPre
  rw [String.data_append]
  exact startsL_self pat.data rest.data

theorem goTrimPre_hdr (line name : String) (h : goHasPre line "## " = true) :
    goTrimPre line "## " = name ↔ line = "## " ++ name := by
  unfold goHasPre at h
  unfold goTrimPre
  rw [if_pos h]
  constructor
  · intro he
    apply String.ext
    rw [String.data_append]
    have hd := startsL_append_drop ("## ").data line.data h
    rw [← he]
    exact hd.symm
  · intro he
    subst he
    apply String.ext
    show ("## " ++ name).data.drop (("## ").data.length) = name.data
    rw [String.data_append]
    exact List.drop_left ("## ").data name.data

theorem addLine_sel (name cur line : String) (acc : GoSections)
    (hname : isSectionName name = true) :
    (addLine cur line acc).sel name
      = acc.sel name ++ (if cur = name then [line] else []) := by
  unfold isSectionName at hname
  simp only [Bool.or_eq_true, beq_iff_eq] at hname
  rcases hname with (h | h) | h <;> subst h <;>
    simp only [addLine, GoSections.sel] <;> split_ifs <;> simp_all

theorem parseSectionsLoop_sel (name : String) (hname : isSectionName name = true) :
    ∀ (lines : List String) (cur : String) (acc : GoSections),
      (parseSectionsLoop lines cur acc).sel name
        = acc.sel name
          ++ (if cur = name then (sectionChunk lines).filter goodLine else [])
          ++ (linesUnder name lines).filter goodLine := by
  intro lines
  induction lines with
  | nil =>
    intro cur acc
    simp [parseSectionsLoop, sectionChunk, linesUnder]
  | cons line rest ih =>
    intro cur acc
    by_cases hhdr : goHasPre line "## " = true
    · have hstep : parseSectionsLoop (line :: rest) cur acc
          = parseSectionsLoop rest (goTrimPre line "## ") acc := by
        simp [parseSectionsLoop, hhdr]
      have hchunk : sectionChunk (line :: rest) = [] := by
        simp [sectionChunk, hhdr]
      have hlu : linesUnder name (line :: rest)
          = (if line = "## " ++ name then sectionChunk rest else [])
            ++ linesUnder name rest := rfl
      rw [hstep, ih, hchunk, hlu, List.filter_append]
      by_cases htrim : goTrimPre line "## " = name
      · rw [if_pos htrim, if_pos ((goTrimPre_hdr line name hhdr).mp htrim)]
        simp [List.append_assoc]
      · rw [if_neg htrim,
          if_neg (fun he => htrim ((goTrimPre_hdr line name hhdr).mpr he))]
        simp
    · have hstep : parseSectionsLoop (line :: rest) cur acc
          = if goodLine line = true then parseSectionsLoop rest cur (addLine cur line acc)
            else parseSectionsLoop rest cur acc := by
        simp [parseSectionsLoop, hhdr]
      have hchunk : sectionChunk (line :: rest) = line :: sectionChunk rest := by
        simp [sectionChunk, hhdr]
      have hne : line ≠ "## " ++ name := by
        intro he
        rw [he] at hhdr
        exact hhdr (goHasPre_append "## " name)
      have hlu : linesUnder name (line :: rest) = linesUnder name rest := by
        simp [linesUnder, hne]
      rw [hstep, hchunk, hlu]
      by_cases hgood : goodLine line = true
      · rw [if_pos hgood, ih, addLine_sel name cur line acc hname]
        by_cases hcur : cur = name
        · simp [hcur, List.filter_cons, hgood, List.append_assoc]
        · simp [hcur]
      · rw [if_neg hgood, ih]
        by_cases hcur : cur = name
        · simp [hcur, List.filter_cons, hgood]
        · simp [hcur]

/-- C6 (amended): whenever the `## Modified Files` and `## Deleted Files`
sections list at least one path, `ParseChangedFiles` returns exactly
those paths — modified first, then deleted, excluding `## Added Files` —
where "the paths listed under a section" is read off the text
independently by `specSectionPaths`. (When both sections are empty the
source instead falls back to a whole-text regex scan, which can return
Added paths; see the counterexample.) -/
theorem ParseChangedFiles_modified_deleted (fc : String)
    (h : specModified fc ++ specDeleted fc ≠ []) :
    ParseChangedFiles fc = .ok (specModified fc ++ specDeleted fc) := by
  have hM := parseSectionsLoop_sel "Modified Files" (by decide)
    (scanLines fc) "" ⟨[], [], []⟩
  have hD := parseSectionsLoop_sel "Deleted Files" (by decide)
    (scanLines fc) "" ⟨[], [], []⟩
  rw [if_neg (show ("" : String) ≠ "Modified Files" by decide)] at hM
  rw [if_neg (show ("" : String) ≠ "Deleted Files" by decide)] at hD
  have hM' : (parseSectionsLoop (scanLines fc) "" ⟨[], [], []⟩).modified
      = specModified fc := by
    simpa [GoSections.sel, specModified, specSectionPaths] using hM
  have hD' : (parseSectionsLoop (scanLines fc) "" ⟨[], [], []⟩).deleted
      = specDeleted fc := by
    simpa [GoSections.sel, specDeleted, specSectionPaths] using hD
  have hfc : fc ≠ "" := by
    intro he
    subst he
    exact h (by decide)
  simp only [ParseChangedFiles, if_neg hfc]
  rw [hM', hD', if_neg h]

/-- C6 witness: the spec scenario — a files list whose only entry is
`path/a.php` under `## Modified Files` — yields exactly
`["path/a.php"]`, by `ParseChangedFiles_modified_deleted`. -/
theorem ParseChangedFiles_modified_deleted_witness :
    ParseChangedFiles "# Changed Files for TEST-123\n\n## Modified Files\npath/a.php\n\n## Added Files\n\n## Deleted Files\n"
      = .ok ["path/a.php"] := by
  have h := ParseChangedFiles_modified_deleted
    "# Changed Files for TEST-123\n\n## Modified Files\npath/a.php\n\n## Added Files\n\n## Deleted Files\n"
    (by decide)
  rw [show specModified "# Changed Files for TEST-123\n\n## Modified Files\npath/a.php\n\n## Added Files\n\n## Deleted Files\n"
      ++ specDeleted "# Changed Files for TEST-123\n\n## Modified Files\npath/a.php\n\n## Added Files\n\n## Deleted Files\n"
      = ["path/a.php"] from by decide] at h
  exact h

/-- C6 counterexample: the claim's universal form is false — a files list
whose only path stands under `## Added Files` makes the Modified and
Deleted sections empty, so the regex fallback fires and returns the
Added path, which the claim says must be excluded. -/
theorem ParseChangedFiles_counterexample :
    ParseChangedFiles "## Added Files\nadded/only.php\n" = .ok ["added/only.php"]
    ∧ specModified "## Added Files\nadded/only.php\n"
        ++ specDeleted "## Added Files\nadded/only.php\n" = []
    ∧ "added/only.php"
        ∈ linesUnder "Added Files" (scanLines "## Added Files\nadded/only.php\n") := by
  refine ⟨by decide, by decide, by decide⟩

/-! ## Stage-3 fan-out lemmas -/

theorem applyWrites_length (files : List String) (bs : List FileBehavior) :
    ∀ (order : List Nat) (buf : List AnalysisResult),
      (applyWrites files bs order buf).length = buf.length := by
  intro order
  induction order with
  | nil => intro buf; rfl
  | cons i rest ih =>
    intro buf
    show (applyWrites files bs rest (buf.set i (writeVal files bs i))).length
        = buf.length
    rw [ih, List.length_set]

theorem applyWrites_getElem? (files : List String) (bs : List FileBehavior) :
    ∀ (order : List Nat) (buf : List AnalysisResult) (j : Nat), j < buf.length →
      (applyWrites files bs order buf)[j]? =
        if j ∈ order then some (writeVal files bs j) else buf[j]? := by
  intro order
  induction order with
  | nil =>
    intro buf j hj
    simp [applyWrites]
  | cons i rest ih =>
    intro buf j hj
    have hlen : j < (buf.set i (writeVal files bs i)).length := by
      rw [List.length_set]; exact hj
    have hstep := ih (buf.set i (writeVal files bs i)) j hlen
    show (applyWrites files bs rest (buf.set i (writeVal files bs i)))[j]? = _
    rw [hstep]
    by_cases hjr : j ∈ rest
    · rw [if_pos hjr, if_pos (List.mem_cons_of_mem i hjr)]
    · rw [if_neg hjr, List.getElem?_set]
      by_cases hij : i = j
      · subst hij
        rw [if_pos rfl, if_pos hj, if_pos (List.mem_cons_self i rest)]
      · rw [if_neg hij, if_neg ?hmem]
        case hmem =>
          intro hm
          rcases List.mem_cons.mp hm with he | he
          · exact hij he.symm
          · exact hjr he

theorem canonicalResults_length (files : List String) (bs : List FileBehavior) :
    (canonicalResults files bs).length = files.length := by
  unfold canonicalResults
  rw [List.length_map, List.length_range]

theorem canonicalResults_getElem? (files : List String) (bs : List FileBehavior)
    (j : Nat) (hj : j < files.length) :
    (canonicalResults files bs)[j]? = some (writeVal files bs j) := by
  unfold canonicalResults
  rw [List.getElem?_map, List.getElem?_range hj]
  rfl

theorem applyWrites_complete (files : List String) (bs : List FileBehavior)
    (order : List Nat) (hcov : ∀ j, j < files.length → j ∈ order) :
    applyWrites files bs order (List.replicate files.length zeroResult)
      = canonicalResults files bs := by
  apply List.ext_getElem?
  intro j
  by_cases hj : j < files.length
  · rw [applyWrites_getElem? files bs order _ j (by simpa using hj),
      if_pos (hcov j hj), canonicalResults_getElem? files bs j hj]
  · have h1 : (applyWrites files bs order
        (List.replicate files.length zeroResult)).length ≤ j := by
      rw [applyWrites_length, List.length_replicate]
      exact Nat.le_of_not_lt hj
    have h2 : (canonicalResults files bs).length ≤ j := by
      rw [canonicalResults_length]
      exact Nat.le_of_not_lt hj
    rw [List.getElem?_eq_none h1, List.getElem?_eq_none h2]

theorem filterMap_if {α β : Type} (p : α → Bool) (g : α → β) (l : List α) :
    l.filterMap (fun a => if p a then some (g a) else none) = (l.filter p).map g := by
  induction l with
  | nil => rfl
  | cons a rest ih =>
    by_cases hp : p a = true
    · simp [List.filterMap_cons, List.filter_cons, hp, ih]
    · simp [List.filterMap_cons, List.filter_cons, hp, ih]

theorem sectionsConcat_aux (results : List AnalysisResult) :
    ∀ s : String,
      results.foldl
        (fun sb r => if r.err.isNone then sb ++ mkSection r.file r.analysis else sb) s
      = s ++ joinAll (results.filterMap
          (fun r => if r.err.isNone then some (mkSection r.file r.analysis) else none)) := by
  induction results with
  | nil => intro s; simp [joinAll, String.append_empty]
  | cons r rs ih =>
    intro s
    by_cases he : r.err.isNone = true
    · rw [List.foldl_cons,
        @List.filterMap_cons_some AnalysisResult String
          (fun r => if r.err.isNone = true then some (mkSection r.file r.analysis) else none)
          r rs (mkSection r.file r.analysis) (if_pos he), joinAll]
      show List.foldl _
          (if r.err.isNone = true then s ++ mkSection r.file r.analysis else s) rs = _
      rw [if_pos he, ih, String.append_assoc]
    · rw [List.foldl_cons,
        @List.filterMap_cons_none AnalysisResult String
          (fun r => if r.err.isNone = true then some (mkSection r.file r.analysis) else none)
          r rs (if_neg he)]
      show List.foldl _
          (if r.err.isNone = true then s ++ mkSection r.file r.analysis else s) rs = _
      rw [if_neg he]
      exact ih s

theorem canonical_sections (files : List String) (bs : List FileBehavior) :
    sectionsConcat (canonicalResults files bs) = joinAll (successSections files bs) := by
  unfold sectionsConcat
  rw [sectionsConcat_aux, String.empty_append]
  congr 1
  unfold canonicalResults successSections successIdx
  rw [List.filterMap_map]
  exact filterMap_if (fun i => (writeVal files bs i).err.isNone)
    (fun i => mkSection (writeVal files bs i).file (writeVal files bs i).analysis)
    (List.range files.length)

theorem workerRun_err_none_iff (i : Nat) (f : String) (b : FileBehavior) :
    (workerRun i f b).err = none ↔ behaviorFails b = false := by
  rcases b with ⟨fetch, llm⟩
  cases fetch with
  | panicked m => simp [workerRun, workerBody, behaviorFails]
  | normal fe =>
    cases fe with
    | error e => simp [workerRun, workerBody, behaviorFails]
    | ok c =>
      cases llm with
      | panicked m => simp [workerRun, workerBody, behaviorFails]
      | normal le =>
        cases le with
        | error e => simp [workerRun, workerBody, behaviorFails]
        | ok a => simp [workerRun, workerBody, behaviorFails]

/-- C1: for a non-empty file list, whatever order the workers complete in
(any `order` covering every index), Stage 3 produces the same artifact as
the fully-written buffer read in index order, and that artifact's
sections are exactly the successful files' sections in input-list order. -/
theorem stage3_order_preserved (counter : TokenCounterFn) (model : String)
    (files : List String) (bs : List FileBehavior) (order : List Nat)
    (hne : files ≠ []) (hlen : bs.length = files.length)
    (hcov : ∀ j, j < files.length → j ∈ order) :
    AnalyzeOriginalImplementation counter model files bs order
      = .ok (stage3Output counter model (canonicalResults files bs))
    ∧ sectionsConcat (canonicalResults files bs)
      = joinAll (successSections files bs) := by
  constructor
  · unfold AnalyzeOriginalImplementation
    rw [applyWrites_complete files bs order hcov]
  · exact canonical_sections files bs

/-- C1 witness: two files completing in reverse order (worker 1 before
worker 0) still yield the canonical in-order artifact. -/
theorem stage3_order_preserved_witness :
    AnalyzeOriginalImplementation (fun _ _ => .error "nc") "m" ["a.php", "b.php"]
        [{ fetch := .normal (.ok "ca"), llm := .normal (.ok "AA") },
         { fetch := .normal (.ok "cb"), llm := .normal (.ok "AB") }] [1, 0]
      = .ok (stage3Output (fun _ _ => .error "nc") "m"
          (canonicalResults ["a.php", "b.php"]
            [{ fetch := .normal (.ok "ca"), llm := .normal (.ok "AA") },
             { fetch := .normal (.ok "cb"), llm := .normal (.ok "AB") }]))
    ∧ sectionsConcat (canonicalResults ["a.php", "b.php"]
        [{ fetch := .normal (.ok "ca"), llm := .normal (.ok "AA") },
         { fetch := .normal (.ok "cb"), llm := .normal (.ok "AB") }])
      = joinAll (successSections ["a.php", "b.php"]
        [{ fetch := .normal (.ok "ca"), llm := .normal (.ok "AA") },
         { fetch := .normal (.ok "cb"), llm := .normal (.ok "AB") }]) :=
  stage3_order_preserved (fun _ _ => .error "nc") "m" ["a.php", "b.php"]
    [{ fetch := .normal (.ok "ca"), llm := .normal (.ok "AA") },
     { fetch := .normal (.ok "cb"), llm := .normal (.ok "AB") }] [1, 0]
    (by decide) (by decide) (by decide)

/-- C3: a file whose fetch or LLM analysis fails (or panics) gets no
section — it is absent from `successIdx`, whose sections are exactly what
the artifact concatenates — and the batch still returns success. -/
theorem stage3_skips_failed (counter : TokenCounterFn) (model : String)
    (files : List String) (bs : List FileBehavior) (order : List Nat) (i : Nat)
    (hlen : bs.length = files.length)
    (hcov : ∀ j, j < files.length → j ∈ order)
    (hi : i < files.length)
    (hfail : behaviorFails (bs.getD i defaultBehavior) = true) :
    (AnalyzeOriginalImplementation counter model files bs order).isOk = true
    ∧ AnalyzeOriginalImplementation counter model files bs order
        = .ok (stage3Output counter model (canonicalResults files bs))
    ∧ i ∉ successIdx files bs
    ∧ sectionsConcat (canonicalResults files bs)
        = joinAll (successSections files bs) := by
  have h2 : AnalyzeOriginalImplementation counter model files bs order
      = .ok (stage3Output counter model (canonicalResults files bs)) := by
    unfold AnalyzeOriginalImplementation
    rw [applyWrites_complete files bs order hcov]
  refine ⟨by rw [h2]; rfl, h2, ?_, canonical_sections files bs⟩
  intro hmem
  have hp : (workerRun i (files.getD i "") (bs.getD i defaultBehavior)).err.isNone
      = true := by
    simpa [successIdx, writeVal] using List.of_mem_filter hmem
  have hb : behaviorFails (bs.getD i defaultBehavior) = false :=
    (workerRun_err_none_iff _ _ _).mp (Option.isNone_iff_eq_none.mp hp)
  rw [hb] at hfail
  cases hfail

/-- C3 witness: a single file whose historical fetch fails — no section,
batch succeeds. -/
theorem stage3_skips_failed_witness :
    (AnalyzeOriginalImplementation (fun _ _ => .error "nc") "m" ["x.php"]
        [{ fetch := .normal (.error "failed to find merge-base"),
           llm := .normal (.ok "unused") }] [0]).isOk = true
    ∧ AnalyzeOriginalImplementation (fun _ _ => .error "nc") "m" ["x.php"]
        [{ fetch := .normal (.error "failed to find merge-base"),
           llm := .normal (.ok "unused") }] [0]
        = .ok (stage3Output (fun _ _ => .error "nc") "m"
            (canonicalResults ["x.php"]
              [{ fetch := .normal (.error "failed to find merge-base"),
                 llm := .normal (.ok "unused") }]))
    ∧ 0 ∉ successIdx ["x.php"]
        [{ fetch := .normal (.error "failed to find merge-base"),
           llm := .normal (.ok "unused") }]
    ∧ sectionsConcat (canonicalResults ["x.php"]
        [{ fetch := .normal (.error "failed to find merge-base"),
           llm := .normal (.ok "unused") }])
      = joinAll (successSections ["x.php"]
        [{ fetch := .normal (.error "failed to find merge-base"),
           llm := .normal (.ok "unused") }]) :=
  stage3_skips_failed (fun _ _ => .error "nc") "m" ["x.php"]
    [{ fetch := .normal (.error "failed to find merge-base"),
       llm := .normal (.ok "unused") }] [0] 0
    (by decide) (by decide) (by decide) (by decide)

/-- C9: a panicking worker is recovered in place — its buffer slot holds
the per-file `panic:` failure entry at its pre-assigned index, every
other worker's slot holds that worker's own result, and the batch still
completes successfully. -/
theorem stage3_panic_recovered (counter : TokenCounterFn) (model : String)
    (files : List String) (bs : List FileBehavior) (order : List Nat)
    (i : Nat) (m : String)
    (hlen : bs.length = files.length)
    (hcov : ∀ j, j < files.length → j ∈ order)
    (hi : i < files.length)
    (hpanic : workerBody i (files.getD i "") (bs.getD i defaultBehavior)
      = .panicked m) :
    (applyWrites files bs order (List.replicate files.length zeroResult))[i]?
      = some { file := files.getD i "", analysis := ""
               err := some ("panic: " ++ m), index := i }
    ∧ (∀ j, j < files.length → j ≠ i →
        (applyWrites files bs order (List.replicate files.length zeroResult))[j]?
          = some (writeVal files bs j))
    ∧ AnalyzeOriginalImplementation counter model files bs order
        = .ok (stage3Output counter model (canonicalResults files bs)) := by
  have hbuf : ∀ j, j < files.length →
      (applyWrites files bs order (List.replicate files.length zeroResult))[j]?
        = some (writeVal files bs j) := by
    intro j hj
    rw [applyWrites_getElem? files bs order _ j (by simpa using hj),
      if_pos (hcov j hj)]
  refine ⟨?_, fun j hj _ => hbuf j hj, ?_⟩
  · rw [hbuf i hi]
    unfold writeVal workerRun
    rw [hpanic]
  · unfold AnalyzeOriginalImplementation
    rw [applyWrites_complete files bs order hcov]

/-- C9 witness: one worker panics; its slot records the recovered panic
and the batch result is still a success. -/
theorem stage3_panic_recovered_witness :
    (applyWrites ["p.php"] [{ fetch := .panicked "boom", llm := .normal (.error "") }]
        [0] (List.replicate (["p.php"] : List String).length zeroResult))[0]?
      = some { file := (["p.php"] : List String).getD 0 "", analysis := ""
               err := some ("panic: " ++ "boom"), index := 0 }
    ∧ (∀ j, j < (["p.php"] : List String).length → j ≠ 0 →
        (applyWrites ["p.php"] [{ fetch := .panicked "boom", llm := .normal (.error "") }]
          [0] (List.replicate (["p.php"] : List String).length zeroResult))[j]?
          = some (writeVal ["p.php"]
              [{ fetch := .panicked "boom", llm := .normal (.error "") }] j))
    ∧ AnalyzeOriginalImplementation (fun _ _ => .error "nc") "m" ["p.php"]
        [{ fetch := .panicked "boom", llm := .normal (.error "") }] [0]
        = .ok (stage3Output (fun _ _ => .error "nc") "m"
            (canonicalResults ["p.php"]
              [{ fetch := .panicked "boom", llm := .normal (.error "") }])) :=
  stage3_panic_recovered (fun _ _ => .error "nc") "m" ["p.php"]
    [{ fetch := .panicked "boom", llm := .normal (.error "") }] [0] 0 "boom"
    (by decide) (by decide) (by decide) (by decide)

/-- C4 counterexample: the claimed fixed worker cap does not exist. With
the spec's observed cap value `k = 5` and `m = 6` files, the state with
all six workers inside their `Complete` call is reachable, so more than
`k` calls are outstanding at once. -/
theorem stage3_no_worker_cap_counterexample :
    S3Reach 6 (List.replicate 6 WorkerPhase.calling)
    ∧ outstanding (List.replicate 6 WorkerPhase.calling) = 6
    ∧ 5 < 6 := by
  refine ⟨?_, by decide, by decide⟩
  have h0 : S3Reach 6 (List.replicate 6 WorkerPhase.notStarted) := S3Reach.init
  have h1 : S3Reach 6 [WorkerPhase.calling, .notStarted, .notStarted, .notStarted,
      .notStarted, .notStarted] :=
    h0.step (S3Step.start (List.replicate 6 WorkerPhase.notStarted) 0 (by decide))
  have h2 : S3Reach 6 [WorkerPhase.calling, .calling, .notStarted, .notStarted,
      .notStarted, .notStarted] :=
    h1.step (S3Step.start _ 1 (by decide))
  have h3 : S3Reach 6 [WorkerPhase.calling, .calling, .calling, .notStarted,
      .notStarted, .notStarted] :=
    h2.step (S3Step.start _ 2 (by decide))
  have h4 : S3Reach 6 [WorkerPhase.calling, .calling, .calling, .calling,
      .notStarted, .notStarted] :=
    h3.step (S3Step.start _ 3 (by decide))
  have h5 : S3Reach 6 [WorkerPhase.calling, .calling, .calling, .calling,
      .calling, .notStarted] :=
    h4.step (S3Step.start _ 4 (by decide))
  have h6 : S3Reach 6 [WorkerPhase.calling, .calling, .calling, .calling,
      .calling, .calling] :=
    h5.step (S3Step.start _ 5 (by decide))
  exact h6

/-- C4 (amended): Stage 3 launches one goroutine per file with no fixed
worker cap, so the only bound on concurrently outstanding `Complete`
calls is the file count itself: every reachable state of an `n`-file run
has at most `n` outstanding calls (and `n` is attained — see the
counterexample). -/
theorem stage3_outstanding_le_files (n : Nat) (ps : List WorkerPhase)
    (h : S3Reach n ps) : outstanding ps ≤ n := by
  have hlen : ps.length = n := by
    induction h with
    | init => simp
    | step _ hs ih =>
      cases hs with
      | start i hp => rw [List.length_set]; exact ih
      | callDone i hp => rw [List.length_set]; exact ih
  calc outstanding ps ≤ ps.length := List.count_le_length _ _
  _ = n := hlen

/-- C4 witness: the amended bound applied at the initial two-file state. -/
theorem stage3_outstanding_le_files_witness :
    outstanding (List.replicate 2 WorkerPhase.notStarted) ≤ 2 :=
  stage3_outstanding_le_files 2 (List.replicate 2 WorkerPhase.notStarted)
    S3Reach.init
